import Mathlib

/-!
Shallow embedding of the MFA attendance system ("mia"): the auth gateway
(login lockout, registration), the face gate similarity decision, the
attendance check-in/check-out state machine with its one-open-record
invariant, and the client-side request/result handling of the React
frontend (`AuthContext.js`, `Register.js`, `Dashboard.js`, `Profile.js`,
`Attendance.js`).

The FastAPI backend (`auth_service.py`, `models.py`, attendance routes) is
not among the sources; only its documentation, environment configuration
and frontend callers are.  Definitions for those parts are modelled from
the spec and are marked as such in their doc comments.  Everything else is
translated directly from the frontend sources.
-/

namespace Mia

/-- Modelled from the spec: the `User` identity record of the backend data
model (the backend `models.py` is missing from the sources) — identity,
hashed secret, face reference, enabled-factor flags and status flags. -/
structure User where
  id : Nat
  username : String
  email : String
  password_hash : String
  full_name : String
  phone_number : String
  face_registered : Bool
  face_reference : Option (List Nat)
  totp_enabled : Bool
  is_active : Bool
  is_admin : Bool
  deriving DecidableEq, Repr

/-- Modelled from the spec: the `AttendanceRecord` row of the backend data
model (the backend `models.py` is missing from the sources).  Times are in
whole minutes; `work_duration` is in fractional hours. -/
structure AttendanceRecord where
  user_id : Nat
  day : Nat
  check_in_time : Nat
  check_out_time : Option Nat
  work_duration : Option ℚ
  face_verified : Bool
  face_image : Option (List Nat)
  location : Option String
  deriving DecidableEq, Repr

/-! ## Face gate -/

/-- Count the positions at which two byte lists hold the same byte. -/
def countEqBytes : List Nat → List Nat → Nat
  | a :: as, b :: bs => (if a = b then 1 else 0) + countEqBytes as bs
  | _, _ => 0

/-- Modelled from the spec: the backend `auth_service.py` similarity score
(missing from the sources) — a coarse byte-similarity in `[0,1]` between
the submitted image and the stored reference, per the spec interface
`score(a,b) -> [0,1]` and the in-repo guide's "98% byte similarity". -/
def byteSimilarity (a b : List Nat) : ℚ :=
  if a.length = 0 ∧ b.length = 0 then 1
  else (countEqBytes a b : ℚ) / ((max a.length b.length : Nat) : ℚ)

/-- Modelled from the spec: the fixed high similarity threshold of the
backend face gate (98%, per `FACE_RECOGNITION_GUIDE.md`). -/
def similarity_threshold : ℚ := 98 / 100

/-- Modelled from the spec: the acceptance policy `accept(score) -> bool`
of the face gate — accepts only above the fixed high threshold. -/
def acceptScore (s : ℚ) : Bool := decide (similarity_threshold < s)

/-- Modelled from the spec: backend `verify_face` (missing from the
sources) — computes the similarity between the submitted image and the
stored reference and applies the acceptance policy; rejects when no
reference is stored. -/
def verify_face (u : User) (image : List Nat) : Bool :=
  match u.face_reference with
  | none => false
  | some ref => acceptScore (byteSimilarity ref image)

/-- From `faceRecognitionService.calculateFaceMatch`: the client-side match
decision given the euclidean distance between two face descriptors computed
by face-api.js (the distance computation itself is a library call); the
source returns `distance <= threshold`, with a default threshold of 0.6. -/
def calculateFaceMatch (distance : ℚ) (threshold : ℚ := 6 / 10) : Bool :=
  decide (distance ≤ threshold)

/-! ## Auth gateway: login lockout -/

/-- `MAX_LOGIN_ATTEMPTS` from the environment configuration documented in
the sources. -/
def MAX_LOGIN_ATTEMPTS : Nat := 5

/-- `LOCKOUT_DURATION_MINUTES` from the environment configuration
documented in the sources. -/
def LOCKOUT_DURATION_MINUTES : Nat := 15

/-- `PASSWORD_MIN_LENGTH` from the environment configuration documented in
the sources. -/
def PASSWORD_MIN_LENGTH : Nat := 8

/-- Modelled from the spec: the per-user failed-login lockout counters of
the backend (missing from the sources). -/
structure LoginState where
  failed_attempts : Nat
  last_failed_at : Option Nat
  deriving DecidableEq, Repr

/-- A fresh login state: no failures recorded. -/
def freshLoginState : LoginState := { failed_attempts := 0, last_failed_at := none }

/-- Modelled from the spec: the account is locked at time `now` when the
failure counter has crossed the threshold and `now` is still within the
configured lockout duration of the last failure. -/
def isLockedAt (st : LoginState) (now : Nat) : Bool :=
  decide (MAX_LOGIN_ATTEMPTS ≤ st.failed_attempts) &&
    (match st.last_failed_at with
     | some t => decide (now < t + LOCKOUT_DURATION_MINUTES)
     | none => false)

/-- Modelled from the spec: the backend bcrypt password hash (missing from
the sources), abstracted as an injective tagging of the secret. -/
def hashPassword (secret : String) : String := "bcrypt$" ++ secret

/-- Errors of the login operation. -/
inductive LoginError
  | InvalidCredential
  | AccountLocked
  deriving DecidableEq, Repr

/-- Modelled from the spec: the signed, time-limited bearer token issued on
a successful login (JWT in the missing backend), abstracted as a tagged
string of the identity and issue time. -/
def issueToken (u : User) (now : Nat) : String :=
  "jwt:" ++ u.username ++ ":" ++ toString now

/-- Modelled from the spec: backend `login(identity, secret)` (missing from
the sources) — fails with `AccountLocked` while locked, even on correct
credentials; fails with `InvalidCredential` on mismatch, incrementing the
failure counter; on success resets the counter and issues a token. -/
def login (u : User) (st : LoginState) (secret : String) (now : Nat) :
    Except LoginError String × LoginState :=
  if isLockedAt st now then (.error .AccountLocked, st)
  else if hashPassword secret = u.password_hash then
    (.ok (issueToken u now), { failed_attempts := 0, last_failed_at := none })
  else
    (.error .InvalidCredential,
     { failed_attempts := st.failed_attempts + 1, last_failed_at := some now })

/-- The login state left behind by one login attempt. -/
def loginSt (u : User) (st : LoginState) (secret : String) (now : Nat) : LoginState :=
  (login u st secret now).2

/-! ## Auth gateway: registration -/

/-- Errors of the register operation. -/
inductive RegisterError
  | DuplicateIdentity
  | WeakSecret
  deriving DecidableEq, Repr

/-- Whether the username or email is already taken in the user table. -/
def identityTaken (users : List User) (username email : String) : Bool :=
  users.any fun u => decide (u.username = username ∨ u.email = email)

/-- The freshly created user row: hashed secret, no factors enabled. -/
def mkUser (nextId : Nat) (username email secret full_name phone : String) : User :=
  { id := nextId, username := username, email := email,
    password_hash := hashPassword secret, full_name := full_name,
    phone_number := phone, face_registered := false, face_reference := none,
    totp_enabled := false, is_active := true, is_admin := false }

/-- Modelled from the spec: backend `register(identity, secret)` (missing
from the sources) — fails with `DuplicateIdentity` if the username or email
is taken, with `WeakSecret` if the secret is below the minimum length, and
otherwise appends a user row with a hashed secret.  The returned list is
the user table after the call: unchanged on error. -/
def register (users : List User) (nextId : Nat)
    (username email secret full_name phone : String) :
    Option RegisterError × List User :=
  if identityTaken users username email then (some .DuplicateIdentity, users)
  else if secret.length < PASSWORD_MIN_LENGTH then (some .WeakSecret, users)
  else (none, users ++ [mkUser nextId username email secret full_name phone])

/-- Outcome of the client-side submit handler: either a validation error
shown locally, or the request that is sent to the server. -/
inductive ClientRegisterStep
  | clientError (msg : String)
  | sendRequest (username email password full_name phone : String)
  deriving DecidableEq, Repr

/-- From `Register.handleSubmit`: client-side validation before the request
is sent — passwords must match and the password must be at least 8
characters long. -/
def handleSubmit (username email password confirmPassword full_name phone : String) :
    ClientRegisterStep :=
  if password ≠ confirmPassword then .clientError "Passwords do not match"
  else if password.length < 8 then
    .clientError "Password must be at least 8 characters long"
  else .sendRequest username email password full_name phone

/-! ## Attendance state machine -/

/-- Errors of the attendance operations. -/
inductive AttendanceError
  | UserNotFound
  | AlreadyCheckedIn
  | FaceNotRegistered
  | FaceVerificationFailed
  | NoOpenCheckIn
  | ConflictOpenRecord
  deriving DecidableEq, Repr

/-- Whether a record is an open record (no check-out) of user `uid` on day
`day`. -/
def isOpenFor (uid day : Nat) (r : AttendanceRecord) : Bool :=
  decide (r.user_id = uid ∧ r.day = day ∧ r.check_out_time = none)

/-- The number of open records of user `uid` on day `day` in the table. -/
def countOpen (db : List AttendanceRecord) (uid day : Nat) : Nat :=
  db.countP (isOpenFor uid day)

/-- The data-model invariant: at most one open record per user per day. -/
def AtMostOneOpen (db : List AttendanceRecord) : Prop :=
  ∀ uid day, countOpen db uid day ≤ 1

/-- Modelled from the spec: the persistence-layer insert with the
uniqueness constraint on "one open record per user per day" (the backend
persistence code is missing from the sources) — inserting an open record
fails under race rather than producing a duplicate open record. -/
def insertRecord (db : List AttendanceRecord) (r : AttendanceRecord) :
    Except AttendanceError (List AttendanceRecord) :=
  if r.check_out_time = none ∧ 0 < countOpen db r.user_id r.day then
    .error .ConflictOpenRecord
  else .ok (db ++ [r])

/-- Look up a user row by id. -/
def findUser (users : List User) (uid : Nat) : Option User :=
  users.find? fun u => decide (u.id = uid)

/-- The record a successful check-in inserts: `check_in_time = now`, no
check-out yet, `face_verified` set to the face-gate result `fv`. -/
def checkInRecord (uid day now : Nat) (image : List Nat) (location : Option String)
    (fv : Bool) : AttendanceRecord :=
  { user_id := uid, day := day, check_in_time := now, check_out_time := none,
    work_duration := none, face_verified := fv, face_image := some image,
    location := location }

/-- Modelled from the spec: backend `checkIn(userId, image, location?)`
(missing from the sources) — fails with `AlreadyCheckedIn` if an open
record exists for today, with `FaceNotRegistered` if face setup is not
complete, requires `verify_face` to succeed, and on success inserts a
record with `check_in_time = now` and `face_verified` set to the gate
result. -/
def checkIn (users : List User) (db : List AttendanceRecord)
    (uid day now : Nat) (image : List Nat) (location : Option String) :
    Except AttendanceError (List AttendanceRecord) :=
  match findUser users uid with
  | none => .error .UserNotFound
  | some u =>
    if 0 < countOpen db uid day then .error .AlreadyCheckedIn
    else if u.face_registered = false then .error .FaceNotRegistered
    else if verify_face u image = false then .error .FaceVerificationFailed
    else insertRecord db (checkInRecord uid day now image location (verify_face u image))

/-- Modelled from the spec: closing a record at check-out time `now` —
sets `check_out_time = now` and `work_duration = (check_out_time -
check_in_time)` in fractional hours. -/
def closeRecord (r : AttendanceRecord) (now : Nat) : AttendanceRecord :=
  { r with check_out_time := some now,
           work_duration := some (((now : ℚ) - (r.check_in_time : ℚ)) / 60) }

/-- Close the first open record of user `uid` in the table, if any. -/
def closeFirstOpen (db : List AttendanceRecord) (uid now : Nat) :
    Option (List AttendanceRecord) :=
  match db with
  | [] => none
  | r :: rest =>
    if r.user_id = uid ∧ r.check_out_time = none then
      some (closeRecord r now :: rest)
    else (closeFirstOpen rest uid now).map (r :: ·)

/-- Modelled from the spec: backend `checkOut(userId)` (missing from the
sources) — fails with `NoOpenCheckIn` if no open record exists; otherwise
sets the check-out time and computes the work duration. -/
def checkOut (db : List AttendanceRecord) (uid now : Nat) :
    Except AttendanceError (List AttendanceRecord) :=
  match closeFirstOpen db uid now with
  | none => .error .NoOpenCheckIn
  | some db' => .ok db'

/-- A concrete user used as a test fixture: username "alice", face setup
complete with reference bytes `[7, 7, 7]`, secret "s3cretpass". -/
def sampleUser : User :=
  { id := 1, username := "alice", email := "alice@example.com",
    password_hash := hashPassword "s3cretpass", full_name := "Alice",
    phone_number := "", face_registered := true,
    face_reference := some [7, 7, 7], totp_enabled := false,
    is_active := true, is_admin := false }

/-- A concrete open record used as a test fixture: user 1 checked in at
minute 540 (09:00) with no check-out yet. -/
def sampleOpenRecord : AttendanceRecord :=
  { user_id := 1, day := 0, check_in_time := 540, check_out_time := none,
    work_duration := none, face_verified := true, face_image := none,
    location := none }

/-! ## Reporting: duration rendering (`Attendance.formatDuration`) -/

/-- From `Attendance.formatDuration`: renders a fractional-hours duration
as whole hours and minutes — `h = Math.floor(hours)`,
`m = Math.round((hours - h) * 60)`; a missing or zero duration (falsy in
the source) renders as "N/A", here `none`. -/
def formatDuration (hours : Option ℚ) : Option (Int × Int) :=
  match hours with
  | none => none
  | some h0 =>
    if h0 = 0 then none
    else some (⌊h0⌋, round ((h0 - (⌊h0⌋ : ℚ)) * 60))

/-! ## Client-side auth operations (`AuthContext.js`) -/

/-- A failed axios request as the catch block sees it:
`error.response?.data?.detail` when the server answered with a detail,
`none` for network errors or detail-less responses. -/
structure ApiFailure where
  detail : Option String
  deriving DecidableEq, Repr

/-- The message computed by `error.response?.data?.detail || fallback`:
the server's detail when it is present and non-empty (a present empty
string is falsy in JavaScript), the fixed fallback otherwise. -/
def failureMessage (e : ApiFailure) (fallback : String) : String :=
  match e.detail with
  | some d => if d = "" then fallback else d
  | none => fallback

/-- The structured result every auth operation returns to its caller. -/
structure OpResult (α : Type) where
  success : Bool
  message : Option String
  data : Option α
  deriving DecidableEq, Repr

/-- From `AuthContext.login`: posts the credentials, then fetches the
profile; any throw from either request is caught and surfaced as
`success: false` with the detail or the "Login failed" fallback; on
success returns the login response data. -/
def loginOp {α β : Type} (loginResp : Except ApiFailure α)
    (profileResp : Except ApiFailure β) : OpResult α :=
  match loginResp with
  | .error e =>
    { success := false, message := some (failureMessage e "Login failed"), data := none }
  | .ok tok =>
    match profileResp with
    | .error e =>
      { success := false, message := some (failureMessage e "Login failed"), data := none }
    | .ok _ => { success := true, message := none, data := some tok }

/-- From `AuthContext.register`: one request; errors surface with the
"Registration failed" fallback. -/
def registerOp {α : Type} (resp : Except ApiFailure α) : OpResult α :=
  match resp with
  | .error e =>
    { success := false, message := some (failureMessage e "Registration failed"), data := none }
  | .ok a => { success := true, message := none, data := some a }

/-- From `AuthContext.verifyFace`: one request; errors surface with the
"Face verification failed" fallback. -/
def verifyFaceOp {α : Type} (resp : Except ApiFailure α) : OpResult α :=
  match resp with
  | .error e =>
    { success := false, message := some (failureMessage e "Face verification failed"),
      data := none }
  | .ok a => { success := true, message := none, data := some a }

/-- From `AuthContext.verifyTOTP`: one request; errors surface with the
"TOTP verification failed" fallback. -/
def verifyTOTPOp {α : Type} (resp : Except ApiFailure α) : OpResult α :=
  match resp with
  | .error e =>
    { success := false, message := some (failureMessage e "TOTP verification failed"),
      data := none }
  | .ok a => { success := true, message := none, data := some a }

/-- From `AuthContext.registerFace`: posts the image, then refreshes the
profile; any throw from either request surfaces with the "Face
registration failed" fallback. -/
def registerFaceOp {α β : Type} (resp : Except ApiFailure α)
    (profileResp : Except ApiFailure β) : OpResult α :=
  match resp with
  | .error e =>
    { success := false, message := some (failureMessage e "Face registration failed"),
      data := none }
  | .ok a =>
    match profileResp with
    | .error e =>
      { success := false, message := some (failureMessage e "Face registration failed"),
        data := none }
    | .ok _ => { success := true, message := none, data := some a }

/-- From `AuthContext.setupTOTP`: one request; errors surface with the
"TOTP setup failed" fallback. -/
def setupTOTPOp {α : Type} (resp : Except ApiFailure α) : OpResult α :=
  match resp with
  | .error e =>
    { success := false, message := some (failureMessage e "TOTP setup failed"), data := none }
  | .ok a => { success := true, message := none, data := some a }

/-! ## Client session and logout (`AuthContext.logout`) -/

/-- The client-held session state: the `access_token` in localStorage, the
axios default `Authorization` header, and the `user` React state. -/
structure ClientSession where
  access_token : Option String
  auth_header : Option String
  user : Option User
  deriving DecidableEq, Repr

/-- From `AuthContext.logout`: tries `POST /auth/logout`; a throw is caught
and only logged; the `finally` block always removes the stored token,
deletes the Authorization default header and clears the user state. -/
def logout (serverResp : Except ApiFailure Unit) (s : ClientSession) : ClientSession :=
  let s1 := match serverResp with
    | .ok _ => s
    | .error _ => s
  { s1 with access_token := none, auth_header := none, user := none }

/-! ## Security level computations (`Profile.js`, `Dashboard.js`) -/

/-- The `{level, color, score}` object of `Profile.getSecurityLevel`. -/
structure SecurityLevel where
  level : String
  color : String
  score : Nat
  deriving DecidableEq, Repr

/-- From `Profile.getSecurityLevel`: base score 1 for username/password,
plus 2 for each of face registration and TOTP; `>= 5` is Excellent,
`>= 3` is Good, otherwise Basic; a missing profile is Basic with score
0. -/
def getSecurityLevel (profile : Option User) : SecurityLevel :=
  match profile with
  | none => { level := "Basic", color := "error", score := 0 }
  | some p =>
    let score := 1 + (if p.face_registered then 2 else 0) + (if p.totp_enabled then 2 else 0)
    if 5 ≤ score then { level := "Excellent", color := "success", score := score }
    else if 3 ≤ score then { level := "Good", color := "warning", score := score }
    else { level := "Basic", color := "error", score := score }

/-- The `{level, color}` object of `Dashboard.getSecurityStatus`. -/
structure SecurityStatus where
  level : String
  color : String
  deriving DecidableEq, Repr

/-- From `Dashboard.getSecurityStatus`: counts the enabled factors (face
registration, TOTP); `>= 2` is excellent, `== 1` is good, otherwise basic;
a missing user is incomplete. -/
def getSecurityStatus (user : Option User) : SecurityStatus :=
  match user with
  | none => { level := "incomplete", color := "error" }
  | some u =>
    let factors := (if u.face_registered then 1 else 0) + (if u.totp_enabled then 1 else 0)
    if 2 ≤ factors then { level := "excellent", color := "success" }
    else if factors = 1 then { level := "good", color := "warning" }
    else { level := "basic", color := "error" }

/-! ## Lemmas about the open-record count -/

theorem countOpen_nil (uid day : Nat) : countOpen [] uid day = 0 := rfl

theorem countOpen_cons (r : AttendanceRecord) (db : List AttendanceRecord) (uid day : Nat) :
    countOpen (r :: db) uid day
      = countOpen db uid day + (if isOpenFor uid day r then 1 else 0) := by
  simp [countOpen, List.countP_cons]

theorem countOpen_append_single (db : List AttendanceRecord) (r : AttendanceRecord)
    (uid day : Nat) :
    countOpen (db ++ [r]) uid day
      = countOpen db uid day + (if isOpenFor uid day r then 1 else 0) := by
  simp [countOpen, List.countP_append, List.countP_cons]

theorem isOpenFor_closeRecord (uid day now : Nat) (r : AttendanceRecord) :
    isOpenFor uid day (closeRecord r now) = false := by
  simp [isOpenFor, closeRecord]

theorem insertRecord_ok_inv {db db' : List AttendanceRecord} {r : AttendanceRecord}
    (hinv : AtMostOneOpen db) (hok : insertRecord db r = .ok db') : AtMostOneOpen db' := by
  unfold insertRecord at hok
  split at hok
  · exact absurd hok (by simp)
  · rename_i hguard
    injection hok with hdb
    subst hdb
    intro uid day
    rw [countOpen_append_single]
    by_cases hop : isOpenFor uid day r = true
    · have h1 : r.user_id = uid ∧ r.day = day ∧ r.check_out_time = none := by
        simpa [isOpenFor] using hop
      obtain ⟨h1a, h1b, h1c⟩ := h1
      subst h1a
      subst h1b
      have h0 : countOpen db r.user_id r.day = 0 := by
        rcases Nat.eq_zero_or_pos (countOpen db r.user_id r.day) with h | h
        · exact h
        · exact absurd ⟨h1c, h⟩ hguard
      simp [hop, h0]
    · have hop' : isOpenFor uid day r = false := by
        cases h : isOpenFor uid day r
        · rfl
        · exact absurd h hop
      simp [hop']
      exact hinv uid day

theorem checkIn_ok_inv {users : List User} {db db' : List AttendanceRecord}
    {uid day now : Nat} {image : List Nat} {loc : Option String}
    (hinv : AtMostOneOpen db)
    (hok : checkIn users db uid day now image loc = .ok db') : AtMostOneOpen db' := by
  cases hfind : findUser users uid with
  | none => simp [checkIn, hfind] at hok
  | some u =>
    simp only [checkIn, hfind] at hok
    split at hok
    · exact absurd hok (by simp)
    split at hok
    · exact absurd hok (by simp)
    split at hok
    · exact absurd hok (by simp)
    exact insertRecord_ok_inv hinv hok

theorem closeFirstOpen_eq_none_iff (uid now : Nat) (db : List AttendanceRecord) :
    closeFirstOpen db uid now = none
      ↔ ∀ r ∈ db, ¬(r.user_id = uid ∧ r.check_out_time = none) := by
  induction db with
  | nil => simp [closeFirstOpen]
  | cons r rest ih =>
    unfold closeFirstOpen
    constructor
    · intro h
      split at h
      · exact absurd h (by simp)
      · rename_i hc
        intro r' hmem
        rcases List.mem_cons.mp hmem with h' | h'
        · subst h'; exact hc
        · have hn : closeFirstOpen rest uid now = none := by
            cases hrec : closeFirstOpen rest uid now with
            | none => rfl
            | some rest' => rw [hrec] at h; exact absurd h (by simp)
          exact (ih.mp hn) r' h'
    · intro h
      rw [if_neg (h r (List.mem_cons_self r rest))]
      rw [ih.mpr (fun r' h' => h r' (List.mem_cons_of_mem r h'))]
      rfl

theorem closeFirstOpen_some_spec (uid now : Nat) (db : List AttendanceRecord) :
    ∀ db', closeFirstOpen db uid now = some db' →
      ∃ r ∈ db, r.user_id = uid ∧ r.check_out_time = none ∧ closeRecord r now ∈ db' := by
  induction db with
  | nil => intro db' h; simp [closeFirstOpen] at h
  | cons r rest ih =>
    intro db' h
    unfold closeFirstOpen at h
    split at h
    · rename_i hc
      injection h with h
      subst h
      exact ⟨r, List.mem_cons_self r rest, hc.1, hc.2, List.mem_cons_self _ _⟩
    · cases hrec : closeFirstOpen rest uid now with
      | none => rw [hrec] at h; exact absurd h (by simp)
      | some rest' =>
        rw [hrec] at h
        simp only [Option.map_some'] at h
        injection h with h
        subst h
        obtain ⟨r', hmem, h1, h2, h3⟩ := ih rest' hrec
        exact ⟨r', List.mem_cons_of_mem r hmem, h1, h2, List.mem_cons_of_mem r h3⟩

theorem closeFirstOpen_count_le (uid now u d : Nat) (db : List AttendanceRecord) :
    ∀ db', closeFirstOpen db uid now = some db' →
      countOpen db' u d ≤ countOpen db u d := by
  induction db with
  | nil => intro db' h; simp [closeFirstOpen] at h
  | cons r rest ih =>
    intro db' h
    unfold closeFirstOpen at h
    split at h
    · injection h with h
      subst h
      rw [countOpen_cons, countOpen_cons, isOpenFor_closeRecord]
      simp only [if_false, Bool.false_eq_true]
      omega
    · cases hrec : closeFirstOpen rest uid now with
      | none => rw [hrec] at h; exact absurd h (by simp)
      | some rest' =>
        rw [hrec] at h
        simp only [Option.map_some'] at h
        injection h with h
        subst h
        rw [countOpen_cons, countOpen_cons]
        have := ih rest' hrec
        omega

/-! ## Claim theorems: attendance state machine -/

/-- Claim C1: for every user and day at most one open attendance record
exists — the invariant `AtMostOneOpen` is preserved by `checkIn` and by
`checkOut`, and inserting a duplicate open record (the racing concurrent
check-in) fails at the persistence layer with a conflict instead of
producing a second open record. -/
theorem openRecord_invariant (users : List User) (db : List AttendanceRecord)
    (uid day now : Nat) (image : List Nat) (loc : Option String)
    (hinv : AtMostOneOpen db) :
    (∀ db', checkIn users db uid day now image loc = .ok db' → AtMostOneOpen db')
    ∧ (∀ db', checkOut db uid now = .ok db' → AtMostOneOpen db')
    ∧ (∀ r : AttendanceRecord, r.check_out_time = none →
        0 < countOpen db r.user_id r.day →
        insertRecord db r = .error .ConflictOpenRecord) := by
  refine ⟨fun db' hok => checkIn_ok_inv hinv hok, fun db' hok => ?_, fun r h1 h2 => ?_⟩
  · unfold checkOut at hok
    cases hrec : closeFirstOpen db uid now with
    | none =>
      simp only [hrec] at hok
      exact absurd hok (by simp)
    | some db2 =>
      simp only [hrec] at hok
      injection hok with hok
      intro u d
      rw [← hok]
      exact le_trans (closeFirstOpen_count_le uid now u d db db2 hrec) (hinv u d)
  · unfold insertRecord
    rw [if_pos ⟨h1, h2⟩]

theorem atMostOneOpen_singleton (r : AttendanceRecord) : AtMostOneOpen [r] := by
  intro uid day
  rw [show ([r] : List AttendanceRecord) = [] ++ [r] from rfl, countOpen_append_single]
  rw [countOpen_nil]
  split <;> omega

/-- Claim C1 witness: on a table that already holds an open record of user
1 on day 0 (and satisfies the invariant), the racing duplicate insert of a
second open record for the same user and day fails with a conflict. -/
theorem openRecord_invariant_witness :
    insertRecord [sampleOpenRecord] sampleOpenRecord = .error .ConflictOpenRecord :=
  (openRecord_invariant [] [sampleOpenRecord] 1 0 540 [1] none
      (atMostOneOpen_singleton sampleOpenRecord)).2.2 sampleOpenRecord rfl (by decide)

/-- Claim C5: `checkOut` fails with `NoOpenCheckIn` whenever the user has
no open record; when an open record exists it succeeds, and the closed
record carries `check_out_time = now` and `work_duration = (check_out_time
- check_in_time)` in fractional hours. -/
theorem checkOut_spec (db : List AttendanceRecord) (uid now : Nat) :
    ((∀ r ∈ db, ¬(r.user_id = uid ∧ r.check_out_time = none)) →
      checkOut db uid now = .error .NoOpenCheckIn)
    ∧ ((∃ r ∈ db, r.user_id = uid ∧ r.check_out_time = none) →
      ∃ db', checkOut db uid now = .ok db'
        ∧ ∃ r ∈ db, r.user_id = uid ∧ r.check_out_time = none
            ∧ closeRecord r now ∈ db'
            ∧ (closeRecord r now).check_out_time = some now
            ∧ (closeRecord r now).work_duration
                = some (((now : ℚ) - (r.check_in_time : ℚ)) / 60)) := by
  constructor
  · intro h
    unfold checkOut
    rw [(closeFirstOpen_eq_none_iff uid now db).mpr h]
  · intro h
    cases hrec : closeFirstOpen db uid now with
    | none =>
      obtain ⟨r, hmem, h1, h2⟩ := h
      exact absurd ⟨h1, h2⟩ ((closeFirstOpen_eq_none_iff uid now db).mp hrec r hmem)
    | some db' =>
      refine ⟨db', by simp [checkOut, hrec], ?_⟩
      obtain ⟨r, hmem, h1, h2, h3⟩ := closeFirstOpen_some_spec uid now db db' hrec
      exact ⟨r, hmem, h1, h2, h3, rfl, rfl⟩

/-- Claim C5 witness: one open record at minute 540 for user 1 is closed
at minute 1050; on a table with no record for user 2, check-out is
rejected with `NoOpenCheckIn`. -/
theorem checkOut_spec_witness :
    (checkOut [sampleOpenRecord] 2 1050 = .error .NoOpenCheckIn)
    ∧ ∃ db', checkOut [sampleOpenRecord] 1 1050 = .ok db'
        ∧ ∃ r ∈ [sampleOpenRecord],
            r.user_id = 1 ∧ r.check_out_time = none
            ∧ closeRecord r 1050 ∈ db'
            ∧ (closeRecord r 1050).check_out_time = some 1050
            ∧ (closeRecord r 1050).work_duration
                = some (((1050 : ℚ) - (r.check_in_time : ℚ)) / 60) :=
  ⟨(checkOut_spec [sampleOpenRecord] 2 1050).1 (by decide),
   (checkOut_spec [sampleOpenRecord] 1 1050).2 (by decide)⟩

/-- Claim C6: `checkIn` fails with `AlreadyCheckedIn` when an open record
exists for the user today, with `FaceNotRegistered` when face setup is not
complete, with a verification failure when the face gate rejects, and on
success appends exactly one record with `check_in_time = now` and
`face_verified` equal to the face-gate result. -/
theorem checkIn_spec (users : List User) (db : List AttendanceRecord)
    (uid day now : Nat) (image : List Nat) (loc : Option String)
    (u : User) (hfind : findUser users uid = some u) :
    (0 < countOpen db uid day →
      checkIn users db uid day now image loc = .error .AlreadyCheckedIn)
    ∧ (countOpen db uid day = 0 → u.face_registered = false →
      checkIn users db uid day now image loc = .error .FaceNotRegistered)
    ∧ (countOpen db uid day = 0 → u.face_registered = true →
        verify_face u image = false →
      checkIn users db uid day now image loc = .error .FaceVerificationFailed)
    ∧ (∀ db', checkIn users db uid day now image loc = .ok db' →
        verify_face u image = true
        ∧ db' = db ++ [checkInRecord uid day now image loc (verify_face u image)]) := by
  refine ⟨fun hopen => ?_, fun h0 hface => ?_, fun h0 hface hv => ?_, fun db' hok => ?_⟩
  · simp [checkIn, hfind, hopen]
  · simp [checkIn, hfind, h0, hface]
  · simp [checkIn, hfind, h0, hface, hv]
  · simp only [checkIn, hfind] at hok
    split at hok
    · exact absurd hok (by simp)
    split at hok
    · exact absurd hok (by simp)
    split at hok
    · exact absurd hok (by simp)
    rename_i hopen hface hv
    have hvt : verify_face u image = true := by
      cases h : verify_face u image
      · exact absurd h hv
      · rfl
    refine ⟨hvt, ?_⟩
    unfold insertRecord at hok
    split at hok
    · rename_i hguard
      exact absurd (by simpa [checkInRecord] using hguard.2) hopen
    · injection hok with hok
      exact hok.symm

/-- Claim C6 witness: with an open record already on the table for user 1
today, the sample user's check-in attempt is rejected with
`AlreadyCheckedIn`. -/
theorem checkIn_spec_witness :
    checkIn [sampleUser] [sampleOpenRecord] 1 0 600 [7, 7, 7] none
      = .error .AlreadyCheckedIn :=
  (checkIn_spec [sampleUser] [sampleOpenRecord] 1 0 600 [7, 7, 7] none sampleUser
    (by decide)).1 (by decide)

/-! ## Claim theorems: face gate -/

/-- Claim C3: `verify_face` is a deterministic function of its inputs, so
byte-identical images get the identical accept/reject result; with a
stored reference it accepts exactly when the similarity score is above the
fixed high threshold, so the acceptance decision is monotone in the score;
the in-source client decision `calculateFaceMatch` is likewise monotone in
similarity (antitone in descriptor distance). -/
theorem verifyFace_deterministic_monotone :
    (∀ (u : User) (img1 img2 : List Nat), img1 = img2 →
      verify_face u img1 = verify_face u img2)
    ∧ (∀ (u : User) (ref image : List Nat), u.face_reference = some ref →
      (verify_face u image = true ↔ similarity_threshold < byteSimilarity ref image))
    ∧ (∀ s1 s2 : ℚ, s1 ≤ s2 → acceptScore s1 = true → acceptScore s2 = true)
    ∧ (∀ d1 d2 t : ℚ, d1 ≤ d2 → calculateFaceMatch d2 t = true →
      calculateFaceMatch d1 t = true) := by
  refine ⟨fun u img1 img2 h => by rw [h], fun u ref image h => ?_,
    fun s1 s2 hle h1 => ?_, fun d1 d2 t hle h2 => ?_⟩
  · simp [verify_face, h, acceptScore]
  · simp only [acceptScore, decide_eq_true_eq] at h1 ⊢
    exact lt_of_lt_of_le h1 hle
  · simp only [calculateFaceMatch, decide_eq_true_eq] at h2 ⊢
    exact le_trans hle h2

/-- Claim C3 witness: the stored reference of the sample user against the
byte-identical image, and concrete monotone instances of the two
acceptance policies. -/
theorem verifyFace_deterministic_monotone_witness :
    (verify_face sampleUser [7, 7, 7] = verify_face sampleUser [7, 7, 7])
    ∧ (verify_face sampleUser [7, 7, 7] = true
        ↔ similarity_threshold < byteSimilarity [7, 7, 7] [7, 7, 7])
    ∧ (acceptScore (99 / 100) = true → acceptScore 1 = true)
    ∧ (calculateFaceMatch (1 / 2) (6 / 10) = true →
      calculateFaceMatch (1 / 4) (6 / 10) = true) :=
  ⟨verifyFace_deterministic_monotone.1 sampleUser [7, 7, 7] [7, 7, 7] rfl,
   verifyFace_deterministic_monotone.2.1 sampleUser [7, 7, 7] [7, 7, 7] rfl,
   verifyFace_deterministic_monotone.2.2.1 (99 / 100) 1 (by norm_num),
   verifyFace_deterministic_monotone.2.2.2 (1 / 4) (1 / 2) (6 / 10) (by norm_num)⟩

/-! ## Claim theorems: login lockout -/

theorem loginSt_fail (u : User) (st : LoginState) (bad : String) (t : Nat)
    (hbad : hashPassword bad ≠ u.password_hash)
    (hlt : st.failed_attempts < MAX_LOGIN_ATTEMPTS) :
    loginSt u st bad t
      = { failed_attempts := st.failed_attempts + 1, last_failed_at := some t } := by
  have hnle : ¬ MAX_LOGIN_ATTEMPTS ≤ st.failed_attempts := by omega
  have hlock : isLockedAt st t = false := by
    simp [isLockedAt, hnle]
  simp [loginSt, login, hlock, hbad]

/-- Claim C2: five consecutive failed logins from a fresh state lock the
account — a sixth attempt within the configured lockout duration of the
fifth failure returns `AccountLocked` even with the correct secret — and
any successful login while not locked resets the failure counter to
zero. -/
theorem login_lockout (u : User) (bad good : String) (t1 t2 t3 t4 t5 t6 : Nat)
    (hbad : hashPassword bad ≠ u.password_hash)
    (hgood : hashPassword good = u.password_hash)
    (hwin : t6 < t5 + LOCKOUT_DURATION_MINUTES) :
    (login u (loginSt u (loginSt u (loginSt u (loginSt u (loginSt u
        freshLoginState bad t1) bad t2) bad t3) bad t4) bad t5) good t6).1
      = .error .AccountLocked
    ∧ (∀ st now, isLockedAt st now = false →
        (login u st good now).1 = .ok (issueToken u now)
        ∧ (login u st good now).2.failed_attempts = 0) := by
  constructor
  · have h1 : loginSt u freshLoginState bad t1
        = { failed_attempts := 1, last_failed_at := some t1 } :=
      loginSt_fail u freshLoginState bad t1 hbad (by simp [freshLoginState, MAX_LOGIN_ATTEMPTS])
    have h2 : loginSt u { failed_attempts := 1, last_failed_at := some t1 } bad t2
        = { failed_attempts := 2, last_failed_at := some t2 } :=
      loginSt_fail u { failed_attempts := 1, last_failed_at := some t1 } bad t2 hbad
        (by simp [MAX_LOGIN_ATTEMPTS])
    have h3 : loginSt u { failed_attempts := 2, last_failed_at := some t2 } bad t3
        = { failed_attempts := 3, last_failed_at := some t3 } :=
      loginSt_fail u { failed_attempts := 2, last_failed_at := some t2 } bad t3 hbad
        (by simp [MAX_LOGIN_ATTEMPTS])
    have h4 : loginSt u { failed_attempts := 3, last_failed_at := some t3 } bad t4
        = { failed_attempts := 4, last_failed_at := some t4 } :=
      loginSt_fail u { failed_attempts := 3, last_failed_at := some t3 } bad t4 hbad
        (by simp [MAX_LOGIN_ATTEMPTS])
    have h5 : loginSt u { failed_attempts := 4, last_failed_at := some t4 } bad t5
        = { failed_attempts := 5, last_failed_at := some t5 } :=
      loginSt_fail u { failed_attempts := 4, last_failed_at := some t4 } bad t5 hbad
        (by simp [MAX_LOGIN_ATTEMPTS])
    rw [h1, h2, h3, h4, h5]
    have hlock : isLockedAt { failed_attempts := 5, last_failed_at := some t5 } t6
        = true := by
      simp [isLockedAt, MAX_LOGIN_ATTEMPTS, hwin]
    simp [login, hlock]
  · intro st now hnl
    constructor
    · simp [login, hnl, hgood]
    · simp [login, hnl, hgood]

/-- Claim C2 witness: the sample user with wrong secret "nope" five times
at minutes 0..4, then the correct secret at minute 5 (inside the lockout
window) — rejected as locked. -/
theorem login_lockout_witness :
    (login sampleUser (loginSt sampleUser (loginSt sampleUser (loginSt sampleUser
        (loginSt sampleUser (loginSt sampleUser freshLoginState "nope" 0)
          "nope" 1) "nope" 2) "nope" 3) "nope" 4) "s3cretpass" 5).1
      = .error .AccountLocked :=
  (login_lockout sampleUser "nope" "s3cretpass" 0 1 2 3 4 5
    (by decide) (by decide) (by decide)).1

/-! ## Claim theorems: work duration -/

/-- Claim C4: a completed record's `work_duration` is the check-out minus
check-in difference in fractional hours; multiplying back by 60 recovers
the exact whole-minute difference (minute accuracy); a 09:00 check-in
(minute 540) with a 17:30 check-out (minute 1050) yields 8.5 hours, which
`formatDuration` renders as 8 hours 30 minutes by flooring the hours and
rounding the fractional remainder. -/
theorem work_duration_formula (r : AttendanceRecord) (now : Nat) :
    (closeRecord r now).work_duration
      = some (((now : ℚ) - (r.check_in_time : ℚ)) / 60)
    ∧ (((now : ℚ) - (r.check_in_time : ℚ)) / 60) * 60
      = (now : ℚ) - (r.check_in_time : ℚ)
    ∧ (closeRecord sampleOpenRecord 1050).work_duration = some (17 / 2)
    ∧ formatDuration (some (17 / 2)) = some (8, 30) := by
  refine ⟨rfl, by ring, ?_, ?_⟩
  · simp only [closeRecord, sampleOpenRecord]
    norm_num
  · norm_num [formatDuration, round_eq]

/-! ## Claim theorems: registration -/

/-- Claim C7: `register` answers `DuplicateIdentity` and leaves the user
table unchanged when the username or email is taken; answers `WeakSecret`
when the secret is below the 8-character minimum; otherwise appends a user
whose stored secret is hashed; and the client-side submit handler refuses
to send the request at all for a short password. -/
theorem register_spec (users : List User) (nextId : Nat)
    (username email secret full_name phone confirmPassword : String) :
    (identityTaken users username email = true →
      register users nextId username email secret full_name phone
        = (some .DuplicateIdentity, users))
    ∧ (identityTaken users username email = false →
        secret.length < PASSWORD_MIN_LENGTH →
      register users nextId username email secret full_name phone
        = (some .WeakSecret, users))
    ∧ (identityTaken users username email = false →
        ¬ secret.length < PASSWORD_MIN_LENGTH →
      register users nextId username email secret full_name phone
        = (none, users ++ [mkUser nextId username email secret full_name phone])
      ∧ (mkUser nextId username email secret full_name phone).password_hash
          = hashPassword secret)
    ∧ (secret.length < 8 →
      ∃ msg, handleSubmit username email secret confirmPassword full_name phone
        = .clientError msg) := by
  refine ⟨fun hdup => ?_, fun hdup hweak => ?_, fun hdup hweak => ?_, fun hshort => ?_⟩
  · simp [register, hdup]
  · simp [register, hdup, hweak]
  · exact ⟨by simp [register, hdup, hweak], rfl⟩
  · by_cases heq : secret = confirmPassword
    · subst heq
      exact ⟨"Password must be at least 8 characters long",
        by simp [handleSubmit, hshort]⟩
    · exact ⟨"Passwords do not match", by simp [handleSubmit, heq]⟩

/-- Claim C7 witness: registering the already-taken username "alice"
answers `DuplicateIdentity` and leaves the table as it was. -/
theorem register_spec_witness :
    register [sampleUser] 2 "alice" "new@example.com" "longenough1" "Al" ""
      = (some .DuplicateIdentity, [sampleUser]) :=
  (register_spec [sampleUser] 2 "alice" "new@example.com" "longenough1" "Al" ""
    "longenough1").1 (by decide)

/-! ## Claim theorems: client-side structured results -/

theorem failureMessage_ne (e : ApiFailure) (fallback : String) (h : fallback ≠ "") :
    failureMessage e fallback ≠ "" := by
  obtain ⟨detail⟩ := e
  cases detail with
  | none => exact h
  | some d =>
    show (if d = "" then fallback else d) ≠ ""
    by_cases hd : d = ""
    · rw [if_pos hd]; exact h
    · rw [if_neg hd]; exact hd

/-- Claim C8: each client auth operation surfaces request failures as a
structured result — `success = false` with a non-empty message (the server
detail when present and non-empty, a fixed fallback otherwise) — and on
success returns `success = true` with the response data; no outcome is
swallowed. -/
theorem authOps_structured {α β : Type} :
    (∀ (l : Except ApiFailure α) (p : Except ApiFailure β),
      ((∃ e, l = .error e) ∨ (∃ e, p = .error e) →
        (loginOp l p).success = false
        ∧ ∃ m, (loginOp l p).message = some m ∧ m ≠ "")
      ∧ (∀ a b, l = .ok a → p = .ok b →
        loginOp l p = ⟨true, none, some a⟩))
    ∧ (∀ r : Except ApiFailure α,
      (∀ e, r = .error e → (registerOp r).success = false
        ∧ ∃ m, (registerOp r).message = some m ∧ m ≠ "")
      ∧ (∀ a, r = .ok a → registerOp r = ⟨true, none, some a⟩))
    ∧ (∀ r : Except ApiFailure α,
      (∀ e, r = .error e → (verifyFaceOp r).success = false
        ∧ ∃ m, (verifyFaceOp r).message = some m ∧ m ≠ "")
      ∧ (∀ a, r = .ok a → verifyFaceOp r = ⟨true, none, some a⟩))
    ∧ (∀ r : Except ApiFailure α,
      (∀ e, r = .error e → (verifyTOTPOp r).success = false
        ∧ ∃ m, (verifyTOTPOp r).message = some m ∧ m ≠ "")
      ∧ (∀ a, r = .ok a → verifyTOTPOp r = ⟨true, none, some a⟩))
    ∧ (∀ (l : Except ApiFailure α) (p : Except ApiFailure β),
      ((∃ e, l = .error e) ∨ (∃ e, p = .error e) →
        (registerFaceOp l p).success = false
        ∧ ∃ m, (registerFaceOp l p).message = some m ∧ m ≠ "")
      ∧ (∀ a b, l = .ok a → p = .ok b →
        registerFaceOp l p = ⟨true, none, some a⟩))
    ∧ (∀ r : Except ApiFailure α,
      (∀ e, r = .error e → (setupTOTPOp r).success = false
        ∧ ∃ m, (setupTOTPOp r).message = some m ∧ m ≠ "")
      ∧ (∀ a, r = .ok a → setupTOTPOp r = ⟨true, none, some a⟩)) := by
  refine ⟨fun l p => ⟨fun herr => ?_, fun a b hl hp => ?_⟩,
    fun r => ⟨fun e he => ?_, fun a ha => ?_⟩,
    fun r => ⟨fun e he => ?_, fun a ha => ?_⟩,
    fun r => ⟨fun e he => ?_, fun a ha => ?_⟩,
    fun l p => ⟨fun herr => ?_, fun a b hl hp => ?_⟩,
    fun r => ⟨fun e he => ?_, fun a ha => ?_⟩⟩
  · rcases herr with ⟨e, he⟩ | ⟨e, he⟩
    · subst he
      exact ⟨rfl, failureMessage e "Login failed", rfl,
        failureMessage_ne e "Login failed" (by decide)⟩
    · subst he
      cases l with
      | error e2 =>
        exact ⟨rfl, failureMessage e2 "Login failed", rfl,
          failureMessage_ne e2 "Login failed" (by decide)⟩
      | ok a =>
        exact ⟨rfl, failureMessage e "Login failed", rfl,
          failureMessage_ne e "Login failed" (by decide)⟩
  · subst hl; subst hp; rfl
  · subst he
    exact ⟨rfl, failureMessage e "Registration failed", rfl,
      failureMessage_ne e "Registration failed" (by decide)⟩
  · subst ha; rfl
  · subst he
    exact ⟨rfl, failureMessage e "Face verification failed", rfl,
      failureMessage_ne e "Face verification failed" (by decide)⟩
  · subst ha; rfl
  · subst he
    exact ⟨rfl, failureMessage e "TOTP verification failed", rfl,
      failureMessage_ne e "TOTP verification failed" (by decide)⟩
  · subst ha; rfl
  · rcases herr with ⟨e, he⟩ | ⟨e, he⟩
    · subst he
      exact ⟨rfl, failureMessage e "Face registration failed", rfl,
        failureMessage_ne e "Face registration failed" (by decide)⟩
    · subst he
      cases l with
      | error e2 =>
        exact ⟨rfl, failureMessage e2 "Face registration failed", rfl,
          failureMessage_ne e2 "Face registration failed" (by decide)⟩
      | ok a =>
        exact ⟨rfl, failureMessage e "Face registration failed", rfl,
          failureMessage_ne e "Face registration failed" (by decide)⟩
  · subst hl; subst hp; rfl
  · subst he
    exact ⟨rfl, failureMessage e "TOTP setup failed", rfl,
      failureMessage_ne e "TOTP setup failed" (by decide)⟩
  · subst ha; rfl

/-- Claim C8 witness: a failed login with a server detail surfaces that
detail with `success = false`; a successful TOTP setup returns the data
with `success = true`. -/
theorem authOps_structured_witness :
    ((loginOp (Except.error { detail := some "Invalid credentials" }
          : Except ApiFailure Nat)
        (Except.ok (0 : Nat))).success = false
      ∧ ∃ m, (loginOp (Except.error { detail := some "Invalid credentials" }
          : Except ApiFailure Nat)
        (Except.ok (0 : Nat))).message = some m ∧ m ≠ "")
    ∧ setupTOTPOp (Except.ok (1 : Nat)) = ⟨true, none, some 1⟩ :=
  ⟨((@authOps_structured Nat Nat).1
      (Except.error { detail := some "Invalid credentials" })
      (Except.ok 0)).1 (Or.inl ⟨{ detail := some "Invalid credentials" }, rfl⟩),
   ((@authOps_structured Nat Nat).2.2.2.2.2 (Except.ok 1)).2 1 rfl⟩

/-! ## Claim theorems: security levels and logout -/

/-- Claim C9: the two independent security-level computations classify
every profile identically — Excellent/excellent exactly when both face
recognition and TOTP are enabled, Good/good exactly when exactly one is,
Basic/basic exactly when neither is. -/
theorem securityLevel_agree (u : User) :
    ((getSecurityLevel (some u)).level = "Excellent"
      ↔ (getSecurityStatus (some u)).level = "excellent")
    ∧ ((getSecurityLevel (some u)).level = "Good"
      ↔ (getSecurityStatus (some u)).level = "good")
    ∧ ((getSecurityLevel (some u)).level = "Basic"
      ↔ (getSecurityStatus (some u)).level = "basic")
    ∧ ((getSecurityLevel (some u)).level = "Excellent"
      ↔ (u.face_registered = true ∧ u.totp_enabled = true))
    ∧ ((getSecurityLevel (some u)).level = "Good"
      ↔ ((u.face_registered = true ∧ u.totp_enabled = false)
          ∨ (u.face_registered = false ∧ u.totp_enabled = true)))
    ∧ ((getSecurityLevel (some u)).level = "Basic"
      ↔ (u.face_registered = false ∧ u.totp_enabled = false)) := by
  cases hf : u.face_registered <;> cases ht : u.totp_enabled <;>
    simp [getSecurityLevel, getSecurityStatus, hf, ht]

/-- Claim C10: `logout` clears the local session unconditionally — whether
the server request succeeds or throws, afterwards the stored access token
is gone, the Authorization default header is deleted and the user state is
null. -/
theorem logout_clears (resp : Except ApiFailure Unit) (s : ClientSession) :
    (logout resp s).access_token = none
    ∧ (logout resp s).auth_header = none
    ∧ (logout resp s).user = none := by
  cases resp <;> exact ⟨rfl, rfl, rfl⟩

end Mia
